import Mathlib

/-!
Verification development for the orphan-maker control program.

The Python sources are embedded shallowly:

* `om_inputs.py`'s `OMButton` (software debounce) becomes `OM.OMButton`
  with a pure `tick` step function over one raw boolean sample.
* `om_operation.py`'s `Operation` and `om_period.py`'s `Period` become
  `OM.Op` and `OM.Per`, with `time.monotonic()` readings passed in as
  explicit rational `now` arguments and the completion callback replaced
  by an invocation counter plus a symbolic target.
* `om_controller.py`'s `Controller` becomes `OM.Controller`, a record of
  the logical state, output commands and live trackers, with every event
  handler and transition function translated one-to-one; `sys.exit(2)`
  is modelled by the `exited` field and an uncaught handler exception by
  the `crashed` field.
* `om_config.py`'s `Config.validate` becomes `OM.Config.validate`.

Python `float` arithmetic on configured constants is modelled exactly:
every double is the rational it denotes, and each arithmetic step is
re-rounded to 53-bit precision with round-to-nearest, ties-to-even
(`OM.fround`).  Exponents stay far inside the normal range for every
value appearing here, so subnormals and overflow never arise.
-/

set_option maxRecDepth 100000

namespace OM

attribute [local semireducible] Rat.add Rat.sub Rat.mul Rat.inv

/-- Round a nonnegative scaled significand to an integer, round to
nearest with ties to even: the rounding used by IEEE-754 binary64. -/
def roundHalfEven (s : ℚ) : ℤ :=
  let f : ℤ := ⌊s⌋
  let r : ℚ := s - (f : ℚ)
  if r < 1/2 then f
  else if 1/2 < r then f + 1
  else if f % 2 = 0 then f else f + 1

/-- Fuel-based upward scan for the binary exponent of `x ≥ 1`:
halve until the value drops below 2, counting the halvings. -/
def expUp : ℕ → ℚ → ℤ → ℤ
  | 0, _, e => e
  | n + 1, x, e => if x < 2 then e else expUp n (x / 2) (e + 1)

/-- Fuel-based downward scan for the binary exponent of `0 < x < 1`:
double until the value reaches 1, counting the doublings. -/
def expDown : ℕ → ℚ → ℤ → ℤ
  | 0, _, e => e
  | n + 1, x, e => if 1 ≤ x then e else expDown n (x * 2) (e - 1)

/-- Binary exponent of a positive rational: the unique `e` with
`2 ^ e ≤ a < 2 ^ (e + 1)` (for `a` within `2 ^ ±400`). -/
def ilog2 (a : ℚ) : ℤ :=
  if 1 ≤ a then expUp 400 a 0 else expDown 400 a 0

/-- Round a rational to the nearest IEEE-754 binary64 value (normal
range assumed), returning the exact rational value of that double. -/
def fround (q : ℚ) : ℚ :=
  if q = 0 then 0
  else
    let a : ℚ := |q|
    let e : ℤ := ilog2 a
    let ulp : ℚ := (2 : ℚ) ^ (e - 52)
    let m : ℚ := ((roundHalfEven (a / ulp) : ℤ) : ℚ)
    if q < 0 then -(m * ulp) else m * ulp

/-- Correctly rounded double addition. -/
def fadd (a b : ℚ) : ℚ := fround (a + b)

/-- Correctly rounded double subtraction. -/
def fsub (a b : ℚ) : ℚ := fround (a - b)

/-- Correctly rounded double division. -/
def fdiv (a b : ℚ) : ℚ := fround (a / b)

/-- The double denoted by a decimal literal in the Python source. -/
def dbl (q : ℚ) : ℚ := fround q

/-- CPython float floor division `a // b` for positive operands:
`fmod` (exact for doubles, and always representable), then a rounded
subtraction and division, then `floor` with CPython's half-correction. -/
def pyFloorDivPos (a b : ℚ) : ℚ :=
  let m : ℚ := a - b * ((⌊a / b⌋ : ℤ) : ℚ)
  let d : ℚ := fdiv (fsub a m) b
  let f : ℤ := ⌊d⌋
  if d - (f : ℚ) > 1/2 then (f : ℚ) + 1 else (f : ℚ)

/-- Sanity anchor: the double nearest 0.22 (checked against CPython). -/
theorem dbl_point22 : dbl (11/50) = 7926335344172073 / 36028797018963968 := by
  decide

/-- Sanity anchor: the double nearest 2.2 (checked against CPython). -/
theorem dbl_2point2 : dbl (11/5) = 2476979795053773 / 1125899906842624 := by
  decide

/-- Sanity anchor: CPython evaluates `2.2 // 0.22` to exactly `10.0`. -/
theorem floorDiv_2point2_point22 : pyFloorDivPos (dbl (11/5)) (dbl (11/50)) = 10 := by
  decide

/-! ## Debounced input channel: `OMButton` from `om_inputs.py` -/

/-- Edge event emitted by a debounced channel when its confirmed value
flips (the source invokes the registered `when_pressed` /
`when_released` callback; both are assumed registered). -/
inductive Edge
  | pressed
  | released
deriving DecidableEq

/-- State of one `OMButton`: the confirmed `value`, the
confirmation-in-progress `tracking_value` and `consecutive` count, the
polarity `invert`, and the module-wide `CONSECUTIVE` threshold carried
as a per-channel field. -/
structure OMButton where
  invert : Bool
  value : Bool
  tracking_value : Bool
  consecutive : ℕ
  threshold : ℕ
deriving DecidableEq

/-- Constructor state of `OMButton`: the confirmed and tracking values
start at `1 if invert else 0`, the consecutive count at zero. -/
def OMButton.init (invert : Bool) (threshold : ℕ) : OMButton :=
  { invert := invert, value := invert, tracking_value := invert,
    consecutive := 0, threshold := threshold }

/-- One call of `OMButton.tick` on a raw sample: agreeing samples bump
`consecutive`; once it reaches the threshold and the sample differs
from the confirmed value, the confirmed value flips and an edge is
emitted; a disagreeing sample rebases `tracking_value` and resets
`consecutive` to zero. -/
def OMButton.tick (raw : Bool) (b : OMButton) : OMButton × Option Edge :=
  if raw = b.tracking_value then
    if b.threshold ≤ b.consecutive + 1 ∧ raw ≠ b.value then
      ({ b with consecutive := b.consecutive + 1, value := raw },
        some (if b.invert then (if raw then Edge.released else Edge.pressed)
              else (if raw then Edge.pressed else Edge.released)))
    else ({ b with consecutive := b.consecutive + 1 }, none)
  else ({ b with tracking_value := raw, consecutive := 0 }, none)

/-- Feed a sample sequence through a channel, collecting emitted edges. -/
def OMButton.run (b : OMButton) (samples : List Bool) : OMButton × List Edge :=
  samples.foldl
    (fun acc raw =>
      let s := acc.1.tick raw
      (s.1, acc.2 ++ s.2.toList))
    (b, [])

/-- Feed a sample sequence through a channel, keeping only the state. -/
def OMButton.runState (b : OMButton) (samples : List Bool) : OMButton :=
  samples.foldl (fun s raw => (s.tick raw).1) b

/-- The last `k` entries of `l` all equal `x`. -/
def trailAllEq (l : List Bool) (k : ℕ) (x : Bool) : Bool :=
  (l.reverse.take k).all (fun y => y == x)

theorem OMButton.runState_append (b : OMButton) (l : List Bool) (a : Bool) :
    b.runState (l ++ [a]) = ((b.runState l).tick a).1 := by
  simp [OMButton.runState, List.foldl_append]

theorem OMButton.tick_fire {b : OMButton} {raw : Bool} (h1 : raw = b.tracking_value)
    (h2 : b.threshold ≤ b.consecutive + 1 ∧ raw ≠ b.value) :
    (b.tick raw).1 = { b with consecutive := b.consecutive + 1, value := raw } := by
  simp only [OMButton.tick]
  rw [if_pos h1, if_pos h2]

theorem OMButton.tick_count {b : OMButton} {raw : Bool} (h1 : raw = b.tracking_value)
    (h2 : ¬(b.threshold ≤ b.consecutive + 1 ∧ raw ≠ b.value)) :
    (b.tick raw).1 = { b with consecutive := b.consecutive + 1 } := by
  simp only [OMButton.tick]
  rw [if_pos h1, if_neg h2]

theorem OMButton.tick_rebase {b : OMButton} {raw : Bool} (h1 : raw ≠ b.tracking_value) :
    (b.tick raw).1 = { b with tracking_value := raw, consecutive := 0 } := by
  simp only [OMButton.tick]
  rw [if_neg h1]

theorem OMButton.tick_threshold (b : OMButton) (raw : Bool) :
    (b.tick raw).1.threshold = b.threshold := by
  by_cases h1 : raw = b.tracking_value
  · by_cases h2 : b.threshold ≤ b.consecutive + 1 ∧ raw ≠ b.value
    · rw [OMButton.tick_fire h1 h2]
    · rw [OMButton.tick_count h1 h2]
  · rw [OMButton.tick_rebase h1]

theorem OMButton.runState_threshold (b : OMButton) (m : List Bool) :
    (b.runState m).threshold = b.threshold := by
  induction m generalizing b with
  | nil => rfl
  | cons x xs ih =>
    show (((b.tick x).1).runState xs).threshold = b.threshold
    rw [ih, OMButton.tick_threshold]

theorem trailAllEq_snoc (l : List Bool) (a : Bool) (k : ℕ) (x : Bool) :
    trailAllEq (l ++ [a]) (k + 1) x = ((a == x) && trailAllEq l k x) := by
  simp [trailAllEq, List.reverse_append]

theorem trailAllEq_mono {l : List Bool} {x : Bool} {j k : ℕ} (hjk : j ≤ k)
    (h : trailAllEq l k x = true) : trailAllEq l j x = true := by
  simp only [trailAllEq, List.all_eq_true] at h ⊢
  intro y hy
  apply h
  have htk : l.reverse.take j = (l.reverse.take k).take j := by
    rw [List.take_take, Nat.min_eq_left hjk]
  exact List.take_subset _ _ (htk ▸ hy)

/-- Inductive invariant tying a channel state to the trace that
produced it: while a confirmation is in progress (`tracking_value`
differs from the confirmed `value`), the last `consecutive + 1` raw
samples all equal `tracking_value`. -/
def trackInv (b : OMButton) (l : List Bool) : Prop :=
  b.tracking_value ≠ b.value →
    b.consecutive + 1 ≤ l.length ∧
      trailAllEq l (b.consecutive + 1) b.tracking_value = true

theorem trackInv_run (invert : Bool) (th : ℕ) (l : List Bool) :
    trackInv ((OMButton.init invert th).runState l) l := by
  induction l using List.reverseRecOn with
  | nil =>
    intro hne
    exact absurd rfl hne
  | append_singleton M a ih =>
    rw [OMButton.runState_append]
    set s := (OMButton.init invert th).runState M with hs
    by_cases hagree : a = s.tracking_value
    · by_cases hfire : s.threshold ≤ s.consecutive + 1 ∧ a ≠ s.value
      · -- confirmed value flips to `a`, so tracking now agrees with it
        intro hne
        simp only [OMButton.tick, if_pos hagree, if_pos hfire] at hne
        exact absurd hagree.symm hne
      · -- the count grows and the pending confirmation extends by `a`
        intro hne
        simp only [OMButton.tick, if_pos hagree, if_neg hfire] at hne ⊢
        have hinv := ih hne
        refine ⟨by simpa using Nat.succ_le_succ hinv.1, ?_⟩
        rw [trailAllEq_snoc]
        have ha : (a == s.tracking_value) = true := by simp [hagree]
        simp [ha, hinv.2]
    · -- disagreeing sample: rebase, count zero, last sample equals it
      intro hne
      simp only [OMButton.tick, if_neg hagree] at hne ⊢
      constructor
      · simp
      · rw [trailAllEq_snoc]
        simp [trailAllEq]

/-- C5: evaluation of the debounce code at the claim's inputs, with
`consecutive_threshold = 20` and the channel starting at `false`.
Nineteen `true` samples followed by `false` samples emit nothing, as
the claim says; but twenty consecutive `true` samples also emit
nothing — the sample that rebases `tracking_value` is not counted, so
`Pressed` fires only on the twenty-first sample. -/
theorem debounce_twenty_sample_eval :
    ((OMButton.init false 20).run
        (List.replicate 19 true ++ List.replicate 30 false)).2 = [] ∧
    ((OMButton.init false 20).run (List.replicate 20 true)).2 = [] ∧
    ((OMButton.init false 20).run (List.replicate 21 true)).2 = [Edge.pressed] := by
  decide

/-- C6: the debounce invariants.  (a) A raw sample disagreeing with
`tracking_value` resets `consecutive` to 0, rebases `tracking_value`,
and leaves the confirmed value unchanged.  (b) Whenever the confirmed
value changes, the new sample differs from the old confirmed value and
the last `consecutive_threshold` raw samples (trailing run) all equal
the new sample — so the confirmed value never changes on a run shorter
than the threshold, and changes at most once per maximal run since
(c) any change sets the confirmed value to the current sample, after
which further samples of the same run agree with it and cannot change
it again. -/
theorem debounce_confirmed_value_invariant :
    (∀ (b : OMButton) (raw : Bool), raw ≠ b.tracking_value →
        (b.tick raw).1.consecutive = 0 ∧ (b.tick raw).1.tracking_value = raw ∧
          (b.tick raw).1.value = b.value) ∧
    (∀ (invert : Bool) (th : ℕ) (l : List Bool) (raw : Bool),
        (((OMButton.init invert th).runState l).tick raw).1.value ≠
            ((OMButton.init invert th).runState l).value →
        raw ≠ ((OMButton.init invert th).runState l).value ∧
          th ≤ ((OMButton.init invert th).runState l).consecutive + 1 ∧
          trailAllEq (l ++ [raw]) th raw = true) ∧
    (∀ (b : OMButton) (raw : Bool), (b.tick raw).1.value ≠ b.value →
        (b.tick raw).1.value = raw) := by
  refine ⟨?_, ?_, ?_⟩
  · intro b raw h
    simp [OMButton.tick, h]
  · intro invert th l raw hchange
    set s := (OMButton.init invert th).runState l with hs
    by_cases hagree : raw = s.tracking_value
    · by_cases hfire : s.threshold ≤ s.consecutive + 1 ∧ raw ≠ s.value
      · have hth : s.threshold = th := by
          rw [hs, OMButton.runState_threshold]
          rfl
        refine ⟨hfire.2, hth ▸ hfire.1, ?_⟩
        have hne : s.tracking_value ≠ s.value := hagree ▸ hfire.2
        have hinv := trackInv_run invert th l hne
        have htrail : trailAllEq (l ++ [raw]) (s.consecutive + 1 + 1) raw = true := by
          rw [trailAllEq_snoc]
          simp only [beq_self_eq_true, Bool.true_and]
          exact hagree ▸ hinv.2
        exact trailAllEq_mono (Nat.le_succ_of_le (hth ▸ hfire.1)) htrail
      · exact absurd (by rw [OMButton.tick_count hagree hfire]) hchange
    · exact absurd (by rw [OMButton.tick_rebase hagree]) hchange
  · intro b raw hchange
    by_cases hagree : raw = b.tracking_value
    · by_cases hfire : b.threshold ≤ b.consecutive + 1 ∧ raw ≠ b.value
      · rw [OMButton.tick_fire hagree hfire]
      · exact absurd (by rw [OMButton.tick_count hagree hfire]) hchange
    · exact absurd (by rw [OMButton.tick_rebase hagree]) hchange

/-- Witness for the debounce invariant theorem at concrete inputs:
threshold 2, trace `[true, true]`, next sample `true` fires a change;
and a disagreeing sample resets a concrete channel. -/
theorem debounce_confirmed_value_invariant_witness :
    (((OMButton.init false 3).tick true).1.consecutive = 0 ∧
      ((OMButton.init false 3).tick true).1.tracking_value = true ∧
      ((OMButton.init false 3).tick true).1.value = (OMButton.init false 3).value) ∧
    (true ≠ ((OMButton.init false 2).runState [true, true]).value ∧
      2 ≤ ((OMButton.init false 2).runState [true, true]).consecutive + 1 ∧
      trailAllEq ([true, true] ++ [true]) 2 true = true) ∧
    (((OMButton.mk false false true 0 1).tick true).1.value = true) :=
  ⟨debounce_confirmed_value_invariant.1 (OMButton.init false 3) true (by decide),
    debounce_confirmed_value_invariant.2.1 false 2 [true, true] true (by decide),
    debounce_confirmed_value_invariant.2.2 (OMButton.mk false false true 0 1) true
      (by decide)⟩

/-! ## Movement trackers: `Operation` (om_operation.py), `Period` (om_period.py) -/

/-- Symbolic identity of the completion callback the Controller hands
to a tracker as `on_complete`. -/
inductive CompleteTarget
  | runningToStopping
  | stoppingToAwaitEngage
  | returningToAwaitEngage
  | jogForwardToAwaitEngage
  | jogBackwardToAwaitEngage
deriving DecidableEq

/-- The double denoted by the literal `0.01` in the source. -/
def d001 : ℚ := dbl (1/100)

/-- Python truthiness of an optional float: `None` and `0.0` are falsy. -/
def truthy : Option ℚ → Bool
  | none => false
  | some q => q != 0

/-- State of an `Operation`.  `completions` counts invocations of the
`on_complete` callback (the source has no already-completed guard, so
this may exceed one). -/
structure Operation where
  max_revolutions : ℚ
  max_time_s : Option ℚ
  max_distance_m : ℚ
  pulley_diameter_m : ℚ
  start_time : ℚ
  last_revolution : Option ℚ
  last_tick : ℚ
  last_speed_mps : Option ℚ
  max_speed_mps : Option ℚ
  duration_s : Option ℚ
  distance_m : ℚ
  revolutions : ℕ
  completions : ℕ
  on_complete : CompleteTarget
deriving DecidableEq

/-- `Operation.__init__` followed by `_start`.  Returns `none` when the
pulley assertion `pulley_diameter_m >= 0.01` fails, or when
`max_distance_m` is `None` (in which case `max_distance_m //
pulley_diameter_m` raises a TypeError); `now` is the
`time.monotonic()` reading at construction. -/
def Operation.init (max_distance_m max_time_s : Option ℚ)
    (pulley_diameter_m now : ℚ) (tgt : CompleteTarget) : Option Operation :=
  if pulley_diameter_m < d001 then none
  else
    match max_distance_m with
    | none => none
    | some md =>
      some { max_revolutions := pyFloorDivPos md pulley_diameter_m,
             max_time_s := max_time_s, max_distance_m := md,
             pulley_diameter_m := pulley_diameter_m,
             start_time := now, last_revolution := some now, last_tick := now,
             last_speed_mps := none, max_speed_mps := none, duration_s := none,
             distance_m := 0, revolutions := 0, completions := 0,
             on_complete := tgt }

/-- `Operation._complete`: record the final duration, clear the speed,
and invoke `on_complete` (counted). -/
def Operation.complete (now : ℚ) (op : Operation) : Operation :=
  { op with duration_s := some (fsub now op.start_time),
            last_speed_mps := none, completions := op.completions + 1 }

/-- `Operation.revolve`: bump the revolution count and the accumulated
distance (one rounded double addition of the pulley dimension), update
the speed estimate with the floored interval, then complete when the
revolution cap or, failing that, the distance cap is reached. -/
def Operation.revolve (now : ℚ) (op : Operation) : Operation :=
  let op1 := { op with revolutions := op.revolutions + 1,
                       distance_m := fadd op.distance_m op.pulley_diameter_m }
  let op2 :=
    match op1.last_revolution with
    | some last =>
      let delta0 := fsub now last
      let delta := if delta0 ≤ d001 then d001 else delta0
      let speed := fdiv op1.pulley_diameter_m delta
      let op' := { op1 with last_speed_mps := some speed }
      match op'.max_speed_mps with
      | none => { op' with max_speed_mps := some speed }
      | some m => if speed > m then { op' with max_speed_mps := some speed } else op'
    | none => op1
  let op3 := { op2 with last_revolution := some now }
  if (op3.revolutions : ℚ) ≥ op3.max_revolutions then op3.complete now
  else if op3.distance_m ≥ op3.max_distance_m then op3.complete now
  else op3

/-- `Operation.tick`: update `last_tick`; complete when a truthy time
cap has been reached (`if self._max_time_s and now - self._start_time
>= self._max_time_s`). -/
def Operation.tick (now : ℚ) (op : Operation) : Operation :=
  if truthy op.max_time_s ∧ fsub now op.start_time ≥ op.max_time_s.getD 0 then
    Operation.complete now { op with last_tick := now }
  else { op with last_tick := now }

/-- Call `revolve` at each time of a schedule, in order. -/
def Operation.revolveAll (op : Operation) (ts : List ℚ) : Operation :=
  ts.foldl (fun a t => a.revolve t) op

/-- State of a `Period`: the duration-only tracker of `om_period.py`.
`completions` counts `on_complete` invocations. -/
structure Period where
  max_time_s : Option ℚ
  start_time : ℚ
  last_tick : ℚ
  duration_s : Option ℚ
  completions : ℕ
deriving DecidableEq

/-- `Period.__init__` followed by `_start`. -/
def Period.init (max_time_s : Option ℚ) (now : ℚ) : Period :=
  { max_time_s := max_time_s, start_time := now, last_tick := now,
    duration_s := none, completions := 0 }

/-- `Period.tick`: update `last_tick`; when a truthy time cap has been
reached, record the duration and invoke `on_complete` (counted). -/
def Period.tick (now : ℚ) (p : Period) : Period :=
  if truthy p.max_time_s ∧ fsub now p.start_time ≥ p.max_time_s.getD 0 then
    { p with last_tick := now, duration_s := some (fsub now p.start_time),
             completions := p.completions + 1 }
  else { p with last_tick := now }

/-- Call `tick` at each time of a schedule, in order. -/
def Period.run (p : Period) (ts : List ℚ) : Period :=
  ts.foldl (fun a t => a.tick t) p

/-- The revolve schedule `1, 2, ..., k` (revolve ignores the clock for
its completion decision, so the spacing is arbitrary). -/
def revTimes (k : ℕ) : List ℚ :=
  (List.range k).map (fun i => ((i : ℚ) + 1))

/-- A `Period`'s completion count over any tick schedule is the number
of ticks at or past the deadline: there is no completion latch. -/
theorem Period.run_completions (T start : ℚ) (hT : T ≠ 0) :
    ∀ (ts : List ℚ) (p : Period), p.max_time_s = some T → p.start_time = start →
      (p.run ts).completions =
        p.completions + (ts.filter (fun t => decide (T ≤ fsub t start))).length := by
  intro ts
  induction ts with
  | nil =>
    intro p _ _
    simp [Period.run]
  | cons t ts ih =>
    intro p hmax hstart
    have hrun : p.run (t :: ts) = (p.tick t).run ts := rfl
    rw [hrun]
    have hbne : (T != 0) = true := by
      simpa using hT
    by_cases hc : T ≤ fsub t start
    · have hcond : truthy p.max_time_s ∧ fsub t p.start_time ≥ p.max_time_s.getD 0 := by
        rw [hmax, hstart]
        exact ⟨by simp [truthy, hbne], hc⟩
      have htick : p.tick t =
          { p with last_tick := t, duration_s := some (fsub t p.start_time),
                   completions := p.completions + 1 } := by
        rw [Period.tick, if_pos hcond]
      rw [htick, ih _ (by simpa using hmax) (by simpa using hstart)]
      simp [List.filter_cons, hc]
      omega
    · have hcond : ¬(truthy p.max_time_s ∧ fsub t p.start_time ≥ p.max_time_s.getD 0) := by
        rw [hmax, hstart]
        intro hand
        exact hc (by simpa using hand.2)
      have htick : p.tick t = { p with last_tick := t } := by
        rw [Period.tick, if_neg hcond]
      rw [htick, ih _ (by simpa using hmax) (by simpa using hstart)]
      simp [List.filter_cons, hc]

/-- C3: evaluation of the tracker code at an input where both
completion paths fire.  `Operation(max_distance=0.22, max_time=1.0,
pulley=0.22)`: a `revolve()` at `t = 0.5` completes via the revolution
cap, then a `tick()` at `t = 1.5` completes again via the time cap —
`on_complete` runs twice, because neither path checks an
already-completed flag. -/
theorem tracker_double_completion_eval :
    (Operation.init (some (dbl (11/50))) (some 1) (dbl (11/50)) 0
          CompleteTarget.runningToStopping).map
        (fun op => ((op.revolve (1/2)).tick (3/2)).completions) = some 2 := by
  decide

/-- C8 counterexample: an `Operation` constructed with a 1.0 s time cap
and no distance cap does not construct successfully — `max_distance_m
// pulley_diameter_m` raises a TypeError on `None`. -/
theorem tracker_no_distance_cap_fails :
    Operation.init none (some 1) (dbl (11/50)) 0
        CompleteTarget.runningToStopping = none := by
  decide

/-- C8 amended: (a) the revolve-capable tracker (`Operation`) cannot be
constructed without a distance cap; duration-only timing is the
separate `Period` class, for which (b) the completion count over any
tick schedule equals the number of ticks at or past the deadline — so
with `max_duration = 1.0 s` and regular 0.1 s ticks (c) `on_complete`
first fires at the tick at `t = 1.0`, inside the claimed window
`[1.0, 1.0 + tick-interval)`, no earlier, but fires again on any later
tick: completion is not latched. -/
theorem period_duration_timer :
    Operation.init none (some 1) (dbl (11/50)) 0
        CompleteTarget.jogForwardToAwaitEngage = none ∧
    (∀ (T start : ℚ), T ≠ 0 →
      ∀ (ts : List ℚ) (p : Period), p.max_time_s = some T → p.start_time = start →
        (p.run ts).completions =
          p.completions + (ts.filter (fun t => decide (T ≤ fsub t start))).length) ∧
    (((Period.init (some 1) 0).run
          ((List.range 10).map (fun i => ((i : ℚ) + 1) / 10))).completions = 1 ∧
      ((Period.init (some 1) 0).run
          ((List.range 9).map (fun i => ((i : ℚ) + 1) / 10))).completions = 0 ∧
      (1 : ℚ) ≤ 1 ∧ (1 : ℚ) < 1 + 1/10 ∧
      ((Period.init (some 1) 0).run
          ((List.range 10).map (fun i => ((i : ℚ) + 1) / 10) ++ [11/10])).completions
        = 2) := by
  refine ⟨by decide, Period.run_completions, by decide⟩

/-- Witness for the amended C8 theorem: one tick at `t = 1` against a
1.0 s deadline started at 0 completes exactly once. -/
theorem period_duration_timer_witness :
    ((Period.init (some 1) 0).run [1]).completions =
      (Period.init (some 1) 0).completions +
        (([1] : List ℚ).filter (fun t => decide ((1 : ℚ) ≤ fsub t 0))).length :=
  period_duration_timer.2.1 1 0 (by decide) [1] (Period.init (some 1) 0) rfl rfl

/-- C9: an `Operation` with pulley dimension 0.22 and distance cap 2.2
(and no time cap) invokes `on_complete` on exactly the tenth
`revolve()` call and on no earlier call.  CPython evaluates `2.2 //
0.22` to exactly `10.0`, and the tenth rounded double addition of
`0.22` reaches the revolution cap (and, coincidentally exactly, the
distance cap) on the tenth call. -/
theorem tracker_ten_revolutions :
    ∀ k : ℕ, k ≤ 10 →
      (Operation.init (some (dbl (11/5))) none (dbl (11/50)) 0
            CompleteTarget.runningToStopping).map
          (fun op => (op.revolveAll (revTimes k)).completions) =
        some (if k = 10 then 1 else 0) := by
  decide

/-- Witness for C9 at the tenth call (and, via the theorem, at the
ninth, where nothing fires). -/
theorem tracker_ten_revolutions_witness :
    (Operation.init (some (dbl (11/5))) none (dbl (11/50)) 0
          CompleteTarget.runningToStopping).map
        (fun op => (op.revolveAll (revTimes 10)).completions) = some 1 :=
  tracker_ten_revolutions 10 (by decide)

/-! ## State machine controller: `Controller` from `om_controller.py` -/

/-- The controller's logical states (`OMState` enum). -/
inductive OMState
  | starting
  | awaitEngage
  | awaitSet
  | awaitGo
  | running
  | stopping
  | returning
  | jogForward
  | jogBackward
  | error
deriving DecidableEq, Fintype

/-- The edge events delivered to the controller's handlers. -/
inductive Event
  | engageActivated
  | engageDeactivated
  | limitActivated
  | limitDeactivated
  | goActivated
  | goDeactivated
  | returnActivated
  | returnDeactivated
  | jogForwardActivated
  | jogForwardDeactivated
  | jogBackwardActivated
  | jogBackwardDeactivated
  | estopActivated
  | estopDeactivated
  | rotateActivated
  | rotateDeactivated
deriving DecidableEq, Fintype

/-- Logical motor command (`Motor.forward/backward/stop`). -/
inductive MotorCmd
  | stopped
  | forward (speed : ℚ)
  | backward (speed : ℚ)
deriving DecidableEq

/-- Logical LED output; `lit` renders `LED.on`, `blink` renders
`LED.blink(on_time=1.0, off_time=1.0)` (the source's only blink). -/
inductive LedMode
  | off
  | lit
  | blink
deriving DecidableEq

/-- Configuration values the Controller reads.  The spec treats the
configuration provider as an out-of-scope collaborator that supplies
validated values (several getters the Controller calls are commented
out in `om_config.py`), so this record models that interface; the
named fields mirror the getters. -/
structure CConfig where
  accel_length_m : ℚ
  brake_length_m : ℚ
  length_m : ℚ
  pulley_diameter_m : ℚ
  jog_speed_mps : ℚ
  return_speed_mps : ℚ
  run_time_s : ℚ
  stop_time_s : ℚ
deriving DecidableEq

/-- Current debounced input samples (`inputs.engage_button.value` and
`inputs.limit_sensor.value`) read by handlers and entry actions. -/
structure Inp where
  engage : Bool
  limit : Bool
deriving DecidableEq

/-- Shallow state of the `Controller`.  `exited = some k` models
`sys.exit(k)`; `last_error` stands in for the state/event pair named in
the logged error message; `crashed` models an exception a handler
would raise (e.g. reading an absent tracker attribute). -/
structure Controller where
  config : CConfig
  state : OMState
  brake_engaged : Bool
  motor : MotorCmd
  engage_led : LedMode
  go_led : LedMode
  position_m : Option ℚ
  running_data : Option Operation
  stopping_data : Option Operation
  returning_data : Option Operation
  jog_forward_data : Option Operation
  jog_backward_data : Option Operation
  exited : Option ℕ
  last_error : Option (OMState × Event)
  crashed : Bool
deriving DecidableEq

/-- `Controller.error`: log the message (carrying the offending
state/event pair), set the state to ERROR, engage the brake, stop the
motor, and `sys.exit(2)`. -/
def Controller.error (pair : OMState × Event) (c : Controller) : Controller :=
  { c with state := OMState.error, brake_engaged := true,
           motor := MotorCmd.stopped, exited := some 2,
           last_error := some pair }

/-- Exit action of STARTING: both LEDs off. -/
def Controller.from_starting (c : Controller) : Controller :=
  { c with engage_led := LedMode.off, go_led := LedMode.off }

/-- Exit action of AWAIT_ENGAGE: engage LED off, brake disengaged. -/
def Controller.from_await_engage (c : Controller) : Controller :=
  { c with engage_led := LedMode.off, brake_engaged := false }

/-- Exit action of AWAIT_SET: go LED off. -/
def Controller.from_await_set (c : Controller) : Controller :=
  { c with go_led := LedMode.off }

/-- Exit action of AWAIT_GO: go LED off. -/
def Controller.from_await_go (c : Controller) : Controller :=
  { c with go_led := LedMode.off }

/-- Exit action of RUNNING: stop the motor, accumulate the run's
distance into `position_m` (a crash if either is absent, as in
Python), and print the statistics block. -/
def Controller.from_running (c : Controller) : Controller :=
  match c.running_data, c.position_m with
  | some op, some p =>
    { c with motor := MotorCmd.stopped, position_m := some (fadd p op.distance_m) }
  | _, _ => { c with motor := MotorCmd.stopped, crashed := true }

/-- Exit action of STOPPING: accumulate the stop's distance and print
statistics. -/
def Controller.from_stopping (c : Controller) : Controller :=
  match c.stopping_data, c.position_m with
  | some op, some p => { c with position_m := some (fadd p op.distance_m) }
  | _, _ => { c with crashed := true }

/-- Exit action of RETURNING: stop the motor, subtract the traversed
distance, print statistics. -/
def Controller.from_returning (c : Controller) : Controller :=
  match c.returning_data, c.position_m with
  | some op, some p =>
    { c with motor := MotorCmd.stopped, position_m := some (fsub p op.distance_m) }
  | _, _ => { c with motor := MotorCmd.stopped, crashed := true }

/-- Exit action of JOG_FORWARD: stop the motor (no brake), add the
jogged distance, print statistics. -/
def Controller.from_jog_forward (c : Controller) : Controller :=
  match c.jog_forward_data, c.position_m with
  | some op, some p =>
    { c with motor := MotorCmd.stopped, position_m := some (fadd p op.distance_m) }
  | _, _ => { c with motor := MotorCmd.stopped, crashed := true }

/-- Exit action of JOG_BACKWARD: stop the motor (no brake), subtract
the jogged distance, print statistics. -/
def Controller.from_jog_backward (c : Controller) : Controller :=
  match c.jog_backward_data, c.position_m with
  | some op, some p =>
    { c with motor := MotorCmd.stopped, position_m := some (fsub p op.distance_m) }
  | _, _ => { c with motor := MotorCmd.stopped, crashed := true }

/-- Entry action of AWAIT_GO: go LED on. -/
def Controller.to_await_go (c : Controller) : Controller :=
  { c with state := OMState.awaitGo, go_led := LedMode.lit }

/-- Transition AWAIT_SET to AWAIT_GO (exit action then entry action). -/
def Controller.from_await_set_to_await_go (c : Controller) : Controller :=
  Controller.to_await_go (Controller.from_await_set c)

/-- Entry action of AWAIT_SET: zero the position, blink the go LED,
and chain straight to AWAIT_GO when the limit sensor already reads
active. -/
def Controller.to_await_set (inp : Inp) (c : Controller) : Controller :=
  let c1 := { c with state := OMState.awaitSet, position_m := some 0,
                     go_led := LedMode.blink }
  if inp.limit then Controller.from_await_set_to_await_go c1 else c1

/-- Transition AWAIT_ENGAGE to AWAIT_SET. -/
def Controller.from_await_engage_to_await_set (inp : Inp) (c : Controller) : Controller :=
  Controller.to_await_set inp (Controller.from_await_engage c)

/-- Entry action of AWAIT_ENGAGE: stop motor, engage brake, engage LED
on, and chain straight to AWAIT_SET when engage already reads held. -/
def Controller.to_await_engage (inp : Inp) (c : Controller) : Controller :=
  let c1 := { c with state := OMState.awaitEngage, motor := MotorCmd.stopped,
                     brake_engaged := true, engage_led := LedMode.lit }
  if inp.engage then Controller.from_await_engage_to_await_set inp c1 else c1

/-- Entry action of RUNNING: start a fresh tracker over the
acceleration length with `timeout_s = None`, completing into
`from_running_to_stopping`.  The source starts no motor here. -/
def Controller.to_running (now : ℚ) (c : Controller) : Controller :=
  let c1 := { c with state := OMState.running }
  match Operation.init (some c.config.accel_length_m) none
      c.config.pulley_diameter_m now CompleteTarget.runningToStopping with
  | some op => { c1 with running_data := some op }
  | none => { c1 with crashed := true }

/-- Entry action of STOPPING: engage the brake, stop the motor, start
a fresh tracker over the brake length with the hardcoded
`timeout_s = 5.0`, completing into `from_stopping_to_await_engage`. -/
def Controller.to_stopping (now : ℚ) (c : Controller) : Controller :=
  let c1 := { c with state := OMState.stopping, brake_engaged := true,
                     motor := MotorCmd.stopped }
  match Operation.init (some c.config.brake_length_m) (some 5)
      c.config.pulley_diameter_m now CompleteTarget.stoppingToAwaitEngage with
  | some op => { c1 with stopping_data := some op }
  | none => { c1 with crashed := true }

/-- Entry action of RETURNING: run the motor backward at return speed
and start a tracker over the acceleration length, no timeout. -/
def Controller.to_returning (now : ℚ) (c : Controller) : Controller :=
  let c1 := { c with state := OMState.returning,
                     motor := MotorCmd.backward c.config.return_speed_mps }
  match Operation.init (some c.config.accel_length_m) none
      c.config.pulley_diameter_m now CompleteTarget.returningToAwaitEngage with
  | some op => { c1 with returning_data := some op }
  | none => { c1 with crashed := true }

/-- Entry action of JOG_FORWARD: run the motor forward at jog speed
and start a tracker over the full length, no timeout. -/
def Controller.to_jog_forward (now : ℚ) (c : Controller) : Controller :=
  let c1 := { c with state := OMState.jogForward,
                     motor := MotorCmd.forward c.config.jog_speed_mps }
  match Operation.init (some c.config.length_m) none
      c.config.pulley_diameter_m now CompleteTarget.jogForwardToAwaitEngage with
  | some op => { c1 with jog_forward_data := some op }
  | none => { c1 with crashed := true }

/-- Entry action of JOG_BACKWARD: run the motor backward at jog speed
and start a tracker over the full length, no timeout. -/
def Controller.to_jog_backward (now : ℚ) (c : Controller) : Controller :=
  let c1 := { c with state := OMState.jogBackward,
                     motor := MotorCmd.backward c.config.jog_speed_mps }
  match Operation.init (some c.config.length_m) none
      c.config.pulley_diameter_m now CompleteTarget.jogBackwardToAwaitEngage with
  | some op => { c1 with jog_backward_data := some op }
  | none => { c1 with crashed := true }

/-- Transition STARTING to AWAIT_ENGAGE. -/
def Controller.from_starting_to_await_engage (inp : Inp) (c : Controller) : Controller :=
  Controller.to_await_engage inp (Controller.from_starting c)

/-- Transition AWAIT_SET to AWAIT_ENGAGE. -/
def Controller.from_await_set_to_await_engage (inp : Inp) (c : Controller) : Controller :=
  Controller.to_await_engage inp (Controller.from_await_set c)

/-- Transition AWAIT_SET to RETURNING. -/
def Controller.from_await_set_to_returning (now : ℚ) (c : Controller) : Controller :=
  Controller.to_returning now (Controller.from_await_set c)

/-- Transition AWAIT_SET to JOG_FORWARD. -/
def Controller.from_await_set_to_jog_forward (now : ℚ) (c : Controller) : Controller :=
  Controller.to_jog_forward now (Controller.from_await_set c)

/-- Transition AWAIT_SET to JOG_BACKWARD. -/
def Controller.from_await_set_to_jog_backward (now : ℚ) (c : Controller) : Controller :=
  Controller.to_jog_backward now (Controller.from_await_set c)

/-- Transition AWAIT_GO to AWAIT_ENGAGE. -/
def Controller.from_await_go_to_await_engage (inp : Inp) (c : Controller) : Controller :=
  Controller.to_await_engage inp (Controller.from_await_go c)

/-- Transition AWAIT_GO to AWAIT_SET. -/
def Controller.from_await_go_to_await_set (inp : Inp) (c : Controller) : Controller :=
  Controller.to_await_set inp (Controller.from_await_go c)

/-- Transition AWAIT_GO to RUNNING. -/
def Controller.from_await_go_to_running (now : ℚ) (c : Controller) : Controller :=
  Controller.to_running now (Controller.from_await_go c)

/-- Transition AWAIT_GO to JOG_FORWARD. -/
def Controller.from_await_go_to_jog_forward (now : ℚ) (c : Controller) : Controller :=
  Controller.to_jog_forward now (Controller.from_await_go c)

/-- Transition AWAIT_GO to JOG_BACKWARD. -/
def Controller.from_await_go_to_jog_backward (now : ℚ) (c : Controller) : Controller :=
  Controller.to_jog_backward now (Controller.from_await_go c)

/-- Transition RUNNING to STOPPING (the running tracker's completion
callback). -/
def Controller.from_running_to_stopping (now : ℚ) (c : Controller) : Controller :=
  Controller.to_stopping now (Controller.from_running c)

/-- Transition STOPPING to AWAIT_ENGAGE (the stopping tracker's
completion callback). -/
def Controller.from_stopping_to_await_engage (inp : Inp) (c : Controller) : Controller :=
  Controller.to_await_engage inp (Controller.from_stopping c)

/-- Transition RETURNING to AWAIT_ENGAGE. -/
def Controller.from_returning_to_await_engage (inp : Inp) (c : Controller) : Controller :=
  Controller.to_await_engage inp (Controller.from_returning c)

/-- Transition RETURNING to JOG_FORWARD. -/
def Controller.from_returning_to_jog_forward (now : ℚ) (c : Controller) : Controller :=
  Controller.to_jog_forward now (Controller.from_returning c)

/-- Transition RETURNING to JOG_BACKWARD. -/
def Controller.from_returning_to_jog_backward (now : ℚ) (c : Controller) : Controller :=
  Controller.to_jog_backward now (Controller.from_returning c)

/-- Transition JOG_FORWARD to AWAIT_ENGAGE. -/
def Controller.from_jog_forward_to_await_engage (inp : Inp) (c : Controller) : Controller :=
  Controller.to_await_engage inp (Controller.from_jog_forward c)

/-- Transition JOG_BACKWARD to AWAIT_ENGAGE. -/
def Controller.from_jog_backward_to_await_engage (inp : Inp) (c : Controller) : Controller :=
  Controller.to_await_engage inp (Controller.from_jog_backward c)

/-- `on_engage_activated`: valid only in AWAIT_ENGAGE; any other
state is an error. -/
def Controller.on_engage_activated (inp : Inp) (c : Controller) : Controller :=
  if c.state = OMState.awaitEngage then c.from_await_engage_to_await_set inp
  else c.error (c.state, Event.engageActivated)

/-- `on_engage_deactivated`: transitions from AWAIT_SET, AWAIT_GO,
RETURNING and both jog states; silently allowed while RUNNING or
STOPPING; an error elsewhere. -/
def Controller.on_engage_deactivated (inp : Inp) (c : Controller) : Controller :=
  if c.state = OMState.awaitSet then c.from_await_set_to_await_engage inp
  else if c.state = OMState.awaitGo then c.from_await_go_to_await_engage inp
  else if c.state = OMState.returning then c.from_returning_to_await_engage inp
  else if c.state = OMState.jogForward then c.from_jog_forward_to_await_engage inp
  else if c.state = OMState.jogBackward then c.from_jog_backward_to_await_engage inp
  else if c.state = OMState.running ∨ c.state = OMState.stopping ∨
      c.state = OMState.returning then c
  else c.error (c.state, Event.engageDeactivated)

/-- `on_limit_activated`: ignored in STARTING and AWAIT_ENGAGE,
transitions from AWAIT_SET, RETURNING and both jog states; an error
elsewhere. -/
def Controller.on_limit_activated (inp : Inp) (c : Controller) : Controller :=
  if c.state = OMState.starting then c
  else if c.state = OMState.awaitEngage then c
  else if c.state = OMState.awaitSet then c.from_await_set_to_await_go
  else if c.state = OMState.returning then c.from_returning_to_await_engage inp
  else if c.state = OMState.jogBackward then c.from_jog_backward_to_await_engage inp
  else if c.state = OMState.jogForward then c.from_jog_forward_to_await_engage inp
  else c.error (c.state, Event.limitActivated)

/-- `on_limit_deactivated`: transitions from AWAIT_GO; ignored in
AWAIT_ENGAGE, RUNNING and both jog states; an error elsewhere. -/
def Controller.on_limit_deactivated (inp : Inp) (c : Controller) : Controller :=
  if c.state = OMState.awaitGo then c.from_await_go_to_await_set inp
  else if c.state = OMState.awaitEngage then c
  else if c.state = OMState.running then c
  else if c.state = OMState.running ∨ c.state = OMState.jogForward ∨
      c.state = OMState.jogBackward then c
  else c.error (c.state, Event.limitDeactivated)

/-- `on_go_activated`: starts a run from AWAIT_GO; every other state
falls through to `pass` (no error branch exists). -/
def Controller.on_go_activated (now : ℚ) (c : Controller) : Controller :=
  if c.state = OMState.awaitGo then c.from_await_go_to_running now
  else if c.state = OMState.running ∨ c.state = OMState.stopping ∨
      c.state = OMState.returning then c
  else c

/-- `on_go_deactivated`: a `pass`. -/
def Controller.on_go_deactivated (c : Controller) : Controller := c

/-- `on_return_activated`: starts a return from AWAIT_SET (checked
before the limit guard); otherwise logs or falls through without
error. -/
def Controller.on_return_activated (inp : Inp) (now : ℚ) (c : Controller) : Controller :=
  if c.state = OMState.awaitSet then c.from_await_set_to_returning now
  else if inp.limit then c
  else if c.state = OMState.running ∨ c.state = OMState.stopping ∨
      c.state = OMState.returning then c
  else c

/-- `on_return_deactivated`: a `pass`. -/
def Controller.on_return_deactivated (c : Controller) : Controller := c

/-- `on_estop_activated`: unconditionally `self.error(...)`. -/
def Controller.on_estop_activated (c : Controller) : Controller :=
  c.error (c.state, Event.estopActivated)

/-- `on_estop_deactivated`: unconditionally `self.error(...)`. -/
def Controller.on_estop_deactivated (c : Controller) : Controller :=
  c.error (c.state, Event.estopDeactivated)

/-- `on_jog_backward_activated`: logs in AWAIT_ENGAGE, transitions
from AWAIT_SET, AWAIT_GO and RETURNING, ignored while RUNNING or
STOPPING, and falls through silently elsewhere. -/
def Controller.on_jog_backward_activated (now : ℚ) (c : Controller) : Controller :=
  if c.state = OMState.awaitEngage then c
  else if c.state = OMState.awaitSet then c.from_await_set_to_jog_backward now
  else if c.state = OMState.awaitGo then c.from_await_go_to_jog_backward now
  else if c.state = OMState.running ∨ c.state = OMState.stopping then c
  else if c.state = OMState.returning then c.from_returning_to_jog_backward now
  else c

/-- `on_jog_backward_deactivated`: ends a backward jog; otherwise a
`pass` (the error branch is commented out in the source). -/
def Controller.on_jog_backward_deactivated (inp : Inp) (c : Controller) : Controller :=
  if c.state = OMState.jogBackward then c.from_jog_backward_to_await_engage inp
  else c

/-- `on_jog_forward_activated`: mirror of the backward case. -/
def Controller.on_jog_forward_activated (now : ℚ) (c : Controller) : Controller :=
  if c.state = OMState.awaitEngage then c
  else if c.state = OMState.awaitSet then c.from_await_set_to_jog_forward now
  else if c.state = OMState.awaitGo then c.from_await_go_to_jog_forward now
  else if c.state = OMState.running ∨ c.state = OMState.stopping then c
  else if c.state = OMState.returning then c.from_returning_to_jog_forward now
  else c

/-- `on_jog_forward_deactivated`: ends a forward jog; otherwise a
`pass`. -/
def Controller.on_jog_forward_deactivated (inp : Inp) (c : Controller) : Controller :=
  if c.state = OMState.jogForward then c.from_jog_forward_to_await_engage inp
  else c

/-- `on_rotate_activated`: delivers `revolve()` to the live tracker of
the current moving state; when the revolve fires the tracker's
completion callback, the bound transition runs; other states fall
through silently.  A missing tracker would raise in Python
(`crashed`). -/
def Controller.on_rotate_activated (inp : Inp) (now : ℚ) (c : Controller) : Controller :=
  match c.state with
  | OMState.running =>
    match c.running_data with
    | some op =>
      let op2 := op.revolve now
      let c1 := { c with running_data := some op2 }
      if op.completions < op2.completions then c1.from_running_to_stopping now else c1
    | none => { c with crashed := true }
  | OMState.stopping =>
    match c.stopping_data with
    | some op =>
      let op2 := op.revolve now
      let c1 := { c with stopping_data := some op2 }
      if op.completions < op2.completions then c1.from_stopping_to_await_engage inp
      else c1
    | none => { c with crashed := true }
  | OMState.returning =>
    match c.returning_data with
    | some op =>
      let op2 := op.revolve now
      let c1 := { c with returning_data := some op2 }
      if op.completions < op2.completions then c1.from_returning_to_await_engage inp
      else c1
    | none => { c with crashed := true }
  | OMState.jogForward =>
    match c.jog_forward_data with
    | some op =>
      let op2 := op.revolve now
      let c1 := { c with jog_forward_data := some op2 }
      if op.completions < op2.completions then c1.from_jog_forward_to_await_engage inp
      else c1
    | none => { c with crashed := true }
  | OMState.jogBackward =>
    match c.jog_backward_data with
    | some op =>
      let op2 := op.revolve now
      let c1 := { c with jog_backward_data := some op2 }
      if op.completions < op2.completions then c1.from_jog_backward_to_await_engage inp
      else c1
    | none => { c with crashed := true }
  | _ => c

/-- `on_rotate_deactivated`: only a log line. -/
def Controller.on_rotate_deactivated (c : Controller) : Controller := c

/-- Deliver one event to the controller, as the input layer would. -/
def Controller.handleEvent (inp : Inp) (now : ℚ) (e : Event) (c : Controller) : Controller :=
  match e with
  | Event.engageActivated => c.on_engage_activated inp
  | Event.engageDeactivated => c.on_engage_deactivated inp
  | Event.limitActivated => c.on_limit_activated inp
  | Event.limitDeactivated => c.on_limit_deactivated inp
  | Event.goActivated => c.on_go_activated now
  | Event.goDeactivated => c.on_go_deactivated
  | Event.returnActivated => c.on_return_activated inp now
  | Event.returnDeactivated => c.on_return_deactivated
  | Event.jogForwardActivated => c.on_jog_forward_activated now
  | Event.jogForwardDeactivated => c.on_jog_forward_deactivated inp
  | Event.jogBackwardActivated => c.on_jog_backward_activated now
  | Event.jogBackwardDeactivated => c.on_jog_backward_deactivated inp
  | Event.estopActivated => c.on_estop_activated
  | Event.estopDeactivated => c.on_estop_deactivated
  | Event.rotateActivated => c.on_rotate_activated inp now
  | Event.rotateDeactivated => c.on_rotate_deactivated

/-- The spec's transition table (section 4.4): the (state, event)
pairs for which a rule is defined, including pairs the spec explicitly
lists as accepted-and-ignored (engage released while Running/Stopping,
go/return events while Running) and the rotate pulse delivered to the
live tracker of a moving state. -/
def specDefined : OMState → Event → Bool
  | _, Event.estopActivated => true
  | _, Event.estopDeactivated => true
  | OMState.awaitEngage, Event.engageActivated => true
  | OMState.awaitSet, Event.engageDeactivated => true
  | OMState.awaitSet, Event.limitActivated => true
  | OMState.awaitSet, Event.returnActivated => true
  | OMState.awaitSet, Event.jogForwardActivated => true
  | OMState.awaitSet, Event.jogBackwardActivated => true
  | OMState.awaitGo, Event.engageDeactivated => true
  | OMState.awaitGo, Event.limitDeactivated => true
  | OMState.awaitGo, Event.goActivated => true
  | OMState.awaitGo, Event.jogForwardActivated => true
  | OMState.awaitGo, Event.jogBackwardActivated => true
  | OMState.running, Event.engageDeactivated => true
  | OMState.running, Event.goActivated => true
  | OMState.running, Event.goDeactivated => true
  | OMState.running, Event.returnActivated => true
  | OMState.running, Event.returnDeactivated => true
  | OMState.running, Event.rotateActivated => true
  | OMState.stopping, Event.engageDeactivated => true
  | OMState.stopping, Event.rotateActivated => true
  | OMState.returning, Event.engageDeactivated => true
  | OMState.returning, Event.limitActivated => true
  | OMState.returning, Event.jogForwardActivated => true
  | OMState.returning, Event.jogBackwardActivated => true
  | OMState.returning, Event.rotateActivated => true
  | OMState.jogForward, Event.jogForwardDeactivated => true
  | OMState.jogForward, Event.limitActivated => true
  | OMState.jogForward, Event.rotateActivated => true
  | OMState.jogBackward, Event.jogBackwardDeactivated => true
  | OMState.jogBackward, Event.limitActivated => true
  | OMState.jogBackward, Event.rotateActivated => true
  | _, _ => false

/-- Release-type events of momentary operator controls (go, return,
jog), the carve-out the spec grants in section 9. -/
def releaseType : Event → Bool
  | Event.goDeactivated => true
  | Event.returnDeactivated => true
  | Event.jogForwardDeactivated => true
  | Event.jogBackwardDeactivated => true
  | _ => false

/-- The undefined, non-release pairs on which the code actually calls
`self.error` (fail-safe shutdown): all misplaced engage presses; a few
misplaced engage releases (but in the jog states an undefined engage
release transitions to AWAIT_ENGAGE instead); limit edges only in the
states the handlers do not explicitly `pass` on.  Undefined go,
return, jog and rotate events never escalate. -/
def escalatesUndefined : OMState → Event → Bool
  | OMState.awaitEngage, Event.engageActivated => false
  | _, Event.engageActivated => true
  | OMState.starting, Event.engageDeactivated => true
  | OMState.awaitEngage, Event.engageDeactivated => true
  | OMState.error, Event.engageDeactivated => true
  | OMState.awaitGo, Event.limitActivated => true
  | OMState.running, Event.limitActivated => true
  | OMState.stopping, Event.limitActivated => true
  | OMState.error, Event.limitActivated => true
  | OMState.starting, Event.limitDeactivated => true
  | OMState.awaitSet, Event.limitDeactivated => true
  | OMState.stopping, Event.limitDeactivated => true
  | OMState.returning, Event.limitDeactivated => true
  | OMState.error, Event.limitDeactivated => true
  | _, _ => false

/-- Default configuration values (the commented-out defaults of
`om_config.py`, with the active `run_time_s = 2.0`,
`stop_time_s = 1.0`). -/
def baseConfig : CConfig :=
  { accel_length_m := 20, brake_length_m := 10, length_m := 30,
    pulley_diameter_m := dbl (11/50), jog_speed_mps := dbl (1/5),
    return_speed_mps := dbl (1/10), run_time_s := 2, stop_time_s := 1 }

/-- A representative live tracker, as `to_running` would create it
over the acceleration length at time 0. -/
def baseOp : Operation :=
  { max_revolutions := pyFloorDivPos 20 (dbl (11/50)), max_time_s := none,
    max_distance_m := 20, pulley_diameter_m := dbl (11/50), start_time := 0,
    last_revolution := some 0, last_tick := 0, last_speed_mps := none,
    max_speed_mps := none, duration_s := none, distance_m := 0,
    revolutions := 0, completions := 0,
    on_complete := CompleteTarget.runningToStopping }

/-- A canonical controller in a given state, with live trackers
populated (as they are whenever a moving state is current). -/
def mkController (s : OMState) : Controller :=
  { config := baseConfig, state := s, brake_engaged := false,
    motor := MotorCmd.stopped, engage_led := LedMode.off,
    go_led := LedMode.off, position_m := some 0,
    running_data := some baseOp, stopping_data := some baseOp,
    returning_data := some baseOp, jog_forward_data := some baseOp,
    jog_backward_data := some baseOp, exited := none, last_error := none,
    crashed := false }

/-- C1: in every controller state — Error included — an e-stop
activation or release unconditionally runs the fail-safe shutdown:
brake engaged, motor stopped, state set to Error, and the process
terminated with exit code 2 (after logging). -/
theorem estop_always_failsafe :
    ∀ (c : Controller) (inp : Inp) (now : ℚ),
      ((c.handleEvent inp now Event.estopActivated).state = OMState.error ∧
        (c.handleEvent inp now Event.estopActivated).brake_engaged = true ∧
        (c.handleEvent inp now Event.estopActivated).motor = MotorCmd.stopped ∧
        (c.handleEvent inp now Event.estopActivated).exited = some 2) ∧
      ((c.handleEvent inp now Event.estopDeactivated).state = OMState.error ∧
        (c.handleEvent inp now Event.estopDeactivated).brake_engaged = true ∧
        (c.handleEvent inp now Event.estopDeactivated).motor = MotorCmd.stopped ∧
        (c.handleEvent inp now Event.estopDeactivated).exited = some 2) := by
  intro c inp now
  exact ⟨⟨rfl, rfl, rfl, rfl⟩, ⟨rfl, rfl, rfl, rfl⟩⟩

/-- C2 counterexample: go-activated in AWAIT_SET has no rule in the
spec's transition table and is not a release-type event, yet the code
neither logs an error nor fail-safes — `on_go_activated` falls through
to `pass`, leaving the controller unchanged. -/
theorem go_in_await_set_ignored :
    specDefined OMState.awaitSet Event.goActivated = false ∧
    releaseType Event.goActivated = false ∧
    ((mkController OMState.awaitSet).handleEvent (Inp.mk false false) 1
        Event.goActivated).exited = none ∧
    ((mkController OMState.awaitSet).handleEvent (Inp.mk false false) 1
        Event.goActivated).state = OMState.awaitSet ∧
    ((mkController OMState.awaitSet).handleEvent (Inp.mk false false) 1
        Event.goActivated).last_error = none := by
  decide

/-- C2 amended: among (state, event) pairs with no rule in the spec's
transition table and outside the release-type carve-out, the code
fail-safes exactly on the pairs of `escalatesUndefined`: all misplaced
engage events except that an engage release during a jog transitions
to AWAIT_ENGAGE, and misplaced limit edges except those the handlers
deliberately `pass` on (limit-activated in Starting/AwaitEngage,
limit-deactivated in AwaitEngage/Running/jogs); undefined go-,
return-, jog- and rotate-events — activations included — are silently
ignored, contrary to the claim. -/
theorem undefined_event_classification :
    ∀ (s : OMState) (e : Event) (eng lim : Bool),
      specDefined s e = false → releaseType e = false →
      (((mkController s).handleEvent (Inp.mk eng lim) 1 e).exited = some 2 ↔
        escalatesUndefined s e = true) := by
  decide

/-- Witness for the C2 classification at a concrete undefined pair:
engage-activated in STARTING escalates. -/
theorem undefined_event_classification_witness :
    ((mkController OMState.starting).handleEvent (Inp.mk true true) 1
        Event.engageActivated).exited = some 2 ↔
      escalatesUndefined OMState.starting Event.engageActivated = true :=
  undefined_event_classification OMState.starting Event.engageActivated true true
    (by decide) (by decide)

/-- C4 counterexample: with the default configuration (run duration
2.0 s, stop duration 1.0 s), the tracker created on entry to RUNNING
has no time cap at all (`timeout_s = None`, not the configured run
duration), and the tracker created on entry to STOPPING has the
hardcoded 5.0 s cap, not the configured stop duration. -/
theorem run_stop_tracker_timeout_counterexample :
    ¬(((mkController OMState.awaitGo).to_running 0).running_data.map
        (fun op => op.max_time_s) =
      some (some (mkController OMState.awaitGo).config.run_time_s)) ∧
    ¬(((mkController OMState.awaitGo).to_stopping 0).stopping_data.map
        (fun op => op.max_time_s) =
      some (some (mkController OMState.awaitGo).config.stop_time_s)) := by
  decide

/-- C4 amended: for any controller whose pulley dimension passes the
tracker's constructor assertion, entry to RUNNING creates a live
tracker with no time cap (`timeout_s = None`; it completes via the
acceleration-length distance cap) whose completion transitions to
STOPPING, and entry to STOPPING creates a live tracker whose time cap
is the hardcoded 5.0 s — not the configured stop duration — whose
completion transitions to AWAIT_ENGAGE. -/
theorem run_stop_tracker_params :
    ∀ (c : Controller) (now : ℚ),
      d001 ≤ c.config.pulley_diameter_m →
      ((c.to_running now).running_data.map
          (fun op => (op.max_time_s, op.max_distance_m, op.on_complete)) =
        some (none, c.config.accel_length_m, CompleteTarget.runningToStopping)) ∧
      ((c.to_stopping now).stopping_data.map
          (fun op => (op.max_time_s, op.max_distance_m, op.on_complete)) =
        some (some 5, c.config.brake_length_m,
          CompleteTarget.stoppingToAwaitEngage)) := by
  intro c now h
  have hlt : ¬(c.config.pulley_diameter_m < d001) := not_lt.mpr h
  constructor
  · simp [Controller.to_running, Operation.init, hlt]
  · simp [Controller.to_stopping, Operation.init, hlt]

/-- Witness for the amended C4 theorem at the default configuration. -/
theorem run_stop_tracker_params_witness :
    (((mkController OMState.awaitGo).to_running 0).running_data.map
        (fun op => (op.max_time_s, op.max_distance_m, op.on_complete)) =
      some (none, (mkController OMState.awaitGo).config.accel_length_m,
        CompleteTarget.runningToStopping)) ∧
    (((mkController OMState.awaitGo).to_stopping 0).stopping_data.map
        (fun op => (op.max_time_s, op.max_distance_m, op.on_complete)) =
      some (some 5, (mkController OMState.awaitGo).config.brake_length_m,
        CompleteTarget.stoppingToAwaitEngage)) :=
  run_stop_tracker_params (mkController OMState.awaitGo) 0 (by decide)

/-- C7: the entry action of AWAIT_SET checks the limit sensor's
current level: when it already reads active the controller chains to
AWAIT_GO before the entry action returns (no fresh limit edge
required); when it does not, the controller rests in AWAIT_SET. -/
theorem await_set_entry_chains :
    ∀ (c : Controller) (inp : Inp),
      (inp.limit = true → (c.to_await_set inp).state = OMState.awaitGo) ∧
      (inp.limit = false → (c.to_await_set inp).state = OMState.awaitSet) := by
  intro c inp
  constructor <;> intro h <;>
    simp [Controller.to_await_set, Controller.from_await_set_to_await_go,
      Controller.from_await_set, Controller.to_await_go, h]

/-- Witness for C7: with the limit sensor active on entry, a concrete
controller lands in AWAIT_GO; with it inactive, in AWAIT_SET. -/
theorem await_set_entry_chains_witness :
    ((mkController OMState.awaitEngage).to_await_set (Inp.mk false true)).state =
        OMState.awaitGo ∧
    ((mkController OMState.awaitEngage).to_await_set (Inp.mk false false)).state =
        OMState.awaitSet :=
  ⟨(await_set_entry_chains (mkController OMState.awaitEngage) (Inp.mk false true)).1
      rfl,
    (await_set_entry_chains (mkController OMState.awaitEngage) (Inp.mk false false)).2
      rfl⟩

/-! ## Configuration validation: `Config` from `om_config.py` -/

/-- The configuration fields `Config.load` parses before calling
`validate`: the two active timing floats, the fourteen pin integers,
and the debounce threshold.  After `load` the threshold is always an
`int`, but `validate` itself also tolerates `None`, so it is kept
optional here. -/
structure Config where
  stop_time_s : ℚ
  run_time_s : ℚ
  motor_forward_pin : ℤ
  motor_backward_pin : ℤ
  motor_speed_pin : ℤ
  brake_pin : ℤ
  engage_led_pin : ℤ
  go_led_pin : ℤ
  engage_button_pin : ℤ
  go_button_pin : ℤ
  return_button_pin : ℤ
  backward_button_pin : ℤ
  forward_button_pin : ℤ
  limit_sensor_pin : ℤ
  rotate_sensor_pin : ℤ
  estop_button_pin : ℤ
  debounce_consecutive : Option ℤ
deriving DecidableEq

/-- The fourteen assigned pins, in the order `validate` collects them. -/
def Config.pins (c : Config) : List ℤ :=
  [c.motor_forward_pin, c.motor_backward_pin, c.motor_speed_pin, c.brake_pin,
   c.engage_led_pin, c.go_led_pin, c.engage_button_pin, c.go_button_pin,
   c.return_button_pin, c.backward_button_pin, c.forward_button_pin,
   c.limit_sensor_pin, c.rotate_sensor_pin, c.estop_button_pin]

/-- The allowed GPIO pin set of `validate`. -/
def gpio_pins : List ℤ :=
  [1, 5, 6, 7, 8, 9, 10, 11, 12, 13, 14, 15, 16, 17, 18, 19, 20, 21, 22, 23,
   24, 25, 26, 27]

/-- `Config.validate` succeeds (no assertion fires) exactly when this
returns `true`: timing ranges, the debounce threshold strictly between
10 and 1000 (or `None`), no duplicate pin assignment, and every pin in
the allowed GPIO set.  The `str(pin) == str(int(pin))` assertion is
vacuous for the `int`-typed pins `load` produces and is omitted;
`validate` runs inside `load`, before any hardware object exists. -/
def Config.validate (c : Config) : Bool :=
  decide (dbl (1/10) ≤ c.stop_time_s ∧ c.stop_time_s ≤ 10) &&
  decide (dbl (1/10) ≤ c.run_time_s ∧ c.run_time_s ≤ 10) &&
  (match c.debounce_consecutive with
   | none => true
   | some d => decide (10 < d ∧ d < 1000)) &&
  decide c.pins.Nodup &&
  c.pins.all (fun p => decide (p ∈ gpio_pins))

/-- The hardcoded defaults of `Config.__init__`. -/
def defaultConfig : Config :=
  { stop_time_s := 1, run_time_s := 2, motor_forward_pin := 22,
    motor_backward_pin := 23, motor_speed_pin := 12, brake_pin := 24,
    engage_led_pin := 6, go_led_pin := 27, engage_button_pin := 26,
    go_button_pin := 16, return_button_pin := 13, backward_button_pin := 17,
    forward_button_pin := 18, limit_sensor_pin := 5, rotate_sensor_pin := 20,
    estop_button_pin := 21, debounce_consecutive := some 20 }

/-- C10: a Config whose construction succeeds (its `load` parsed an
integer debounce threshold and `validate` raised no assertion — all
before any hardware actuation) has its threshold strictly between 10
and 1000 and its fourteen pins pairwise distinct members of the
allowed GPIO set; contrapositively, any configuration violating one of
these fails the construction-time assertion. -/
theorem config_validate_constraints :
    ∀ (c : Config) (d : ℤ), c.debounce_consecutive = some d →
      c.validate = true →
      (10 < d ∧ d < 1000) ∧ c.pins.Nodup ∧ ∀ p ∈ c.pins, p ∈ gpio_pins := by
  intro c d hd hv
  rw [Config.validate, hd] at hv
  simp only [Bool.and_eq_true, decide_eq_true_eq, List.all_eq_true] at hv
  exact ⟨hv.1.1.2, hv.1.2, hv.2⟩

/-- Witness for C10 at the default configuration. -/
theorem config_validate_constraints_witness :
    (10 < (20 : ℤ) ∧ (20 : ℤ) < 1000) ∧ defaultConfig.pins.Nodup ∧
      ∀ p ∈ defaultConfig.pins, p ∈ gpio_pins :=
  config_validate_constraints defaultConfig 20 rfl (by decide)

end OM
